import Mathlib

/-!
# rapid-mutex: shallow embedding of `src/index.js`

The repository implements a mutual-exclusion lock over an `Int32Array`
backed by a `SharedArrayBuffer`, using `Atomics.compareExchange`,
`Atomics.wait`/`Atomics.waitAsync` and `Atomics.notify`.

Embedding choices:

* A JS buffer argument is modelled by `MutexBuffer`: the dynamic-type facts
  `validateMutexBuffer` checks (`instanceof Int32Array`, backing
  `SharedArrayBuffer`) become boolean fields, the cell contents become a
  list of integers (cell 0 is the lock word).
* The lock word is mutable shared state; the acquisition functions thread
  the word value explicitly, and interference by other participants is an
  oracle: each loop iteration may see the word overwritten by the
  environment (`LoopRound.interfere`).
* `Date.now()` readings and the outcome of the wait primitive are oracles
  supplied in `LoopRound`; the source loop is infinite, so the model runs
  over a finite schedule of rounds and reports `none` ("still looping")
  when the schedule is exhausted.
* Each run is instrumented with the list of atomic-primitive events it
  performs (`AtomicEvent`), so "never invokes the wait primitive" and
  "never mutates the word" are statements about the event trace.
* JS numbers are modelled as `ℚ` plus an `Infinity` sentinel; `NaN` and
  double rounding are outside the model.  Millisecond timeouts used by the
  repository (and all its tests) are integers, so `${timeoutMs}ms`
  interpolation is modelled for integer values, where JS `String(n)` is
  the plain decimal numeral.
* Errors are `MutexError` values carrying the exact source message string
  (the source distinguishes error kinds only by message).
-/

/-- Lock states, from `LockStatus` (`src/index.js` lines 17-20). -/
def LockStatus.Unlocked : Int := 0

/-- `LockStatus.Locked = 1` (`src/index.js` line 19). -/
def LockStatus.Locked : Int := 1

/-- Mutex error (`MutexError`, `src/index.js` lines 5-10): the source
distinguishes failures only by the message string. -/
structure MutexError where
  message : String
  deriving Repr, DecidableEq

/-- A candidate lock buffer as seen by `validateMutexBuffer`: the two
dynamic-type facts it tests plus the integer cells (cell 0 is the lock
word). -/
structure MutexBuffer where
  isInt32Array : Bool
  isSharedBacked : Bool
  words : List Int
  deriving Repr, DecidableEq

/-- The lock word: cell 0 of the buffer. -/
def MutexBuffer.word0 (b : MutexBuffer) : Int := b.words.headD 0

/-- A JS value passed as the `timeoutMs` argument: `Infinity`, a finite
number (modelled as a rational), or a non-number value. -/
inductive JSTimeoutArg where
  | infinity
  | num (q : ℚ)
  | nonNumber
  deriving Repr, DecidableEq

/-- `validateMutexBuffer` (`src/index.js` lines 76-86): requires an
`Int32Array`, length ≥ 1, backed by a `SharedArrayBuffer`. -/
def validateMutexBuffer (buffer : MutexBuffer) : Except MutexError Unit :=
  if ¬ buffer.isInt32Array then
    .error ⟨"Invalid buffer: must be an Int32Array"⟩
  else if buffer.words.length < 1 then
    .error ⟨"Invalid buffer: must have length >= 1"⟩
  else if ¬ buffer.isSharedBacked then
    .error ⟨"Invalid buffer: must be backed by a SharedArrayBuffer"⟩
  else
    .ok ()

/-- `validateTimeout` (`src/index.js` lines 93-97):
`timeoutMs !== Infinity && (typeof timeoutMs !== 'number' || timeoutMs < 0)`
throws.  (`Infinity` is itself of JS type number, so the first disjunct
only matters for the sentinel.) -/
def validateTimeout (timeoutMs : JSTimeoutArg) : Except MutexError Unit :=
  match timeoutMs with
  | .infinity => .ok ()
  | .num q => if q < 0 then .error ⟨"Timeout must be a non-negative number or Infinity"⟩ else .ok ()
  | .nonNumber => .error ⟨"Timeout must be a non-negative number or Infinity"⟩

/-- Outcome of the wait primitive (`Atomics.wait` / `waitAsync`):
`ok` = woken, `notEqual` = value had already changed, `timedOut`,
and the `interrupted` outcome the source loop additionally handles. -/
inductive WaitResult where
  | ok
  | notEqual
  | timedOut
  | interrupted
  deriving Repr, DecidableEq

/-- One atomic-primitive event performed by an acquisition attempt:
a `Date.now()` reading, a `compareExchange` on cell 0 (with the observed
value, and the stored value when the exchange succeeded), or a wait call. -/
inductive AtomicEvent where
  | readNow (t : Int)
  | cas (observed : Int) (stored : Option Int)
  | wait (expected : Int) (tmo : JSTimeoutArg) (result : WaitResult)
  deriving Repr, DecidableEq

/-- Environment oracle for one iteration of the acquisition loop:
an optional write to the lock word by another participant before this
iteration's atomic access, the `Date.now()` reading at the top of the
iteration, and the result the wait primitive would return. -/
structure LoopRound where
  interfere : Option Int
  now : Int
  waitResult : WaitResult
  deriving Repr, DecidableEq

/-- The handle returned on successful acquisition
(`{ [dispose]: () => unlock(buffer, true) }`): it captures the buffer it
unlocks. -/
structure LockHandle where
  buffer : MutexBuffer
  deriving Repr, DecidableEq

instance : DecidableEq (Except MutexError LockHandle) := fun a b =>
  match a, b with
  | .error x, .error y =>
      if h : x = y then .isTrue (by rw [h]) else .isFalse (by simp [h])
  | .ok x, .ok y =>
      if h : x = y then .isTrue (by rw [h]) else .isFalse (by simp [h])
  | .error _, .ok _ => .isFalse (by simp)
  | .ok _, .error _ => .isFalse (by simp)

/-- Result of running an acquisition attempt over a finite schedule:
`result = none` means the loop was still running when the schedule ran
out; `word` is the final lock-word value; `events` the atomic events the
attempt performed, in order. -/
structure LockOut where
  result : Option (Except MutexError LockHandle)
  word : Int
  events : List AtomicEvent
  deriving Repr, DecidableEq

/-- The deadline test at the top of the loop
(`timeoutMs !== Infinity && elapsed > timeoutMs`, `src/index.js` line 124).
A non-number can never reach the loop (validation throws first); JS would
evaluate the comparison as false on `NaN`-producing coercions, and we fix
the branch to `false` there. -/
def timedOutByDeadline (timeoutMs : JSTimeoutArg) (elapsed : Int) : Bool :=
  match timeoutMs with
  | .infinity => false
  | .num q => decide ((elapsed : ℚ) > q)
  | .nonNumber => false

/-- `Math.max` on two (non-`NaN`) numbers: the larger argument. -/
def mathMax (a b : ℚ) : ℚ := if a ≤ b then b else a

/-- `timeoutMs === Infinity ? Infinity : Math.max(0, timeoutMs - elapsed)`
(`src/index.js` line 135).  The non-number branch is unreachable past
validation. -/
def remainingTime (timeoutMs : JSTimeoutArg) (elapsed : Int) : JSTimeoutArg :=
  match timeoutMs with
  | .infinity => .infinity
  | .num q => .num (mathMax 0 (q - (elapsed : ℚ)))
  | .nonNumber => .nonNumber

/-- Rendering of the `timeoutMs` value inside a template literal.
JS `String(n)` for the integers the repository uses is the decimal
numeral; `String(Infinity)` is `"Infinity"`.  Non-integer doubles are
outside the model and rendered as an opaque token. -/
def jsTimeoutRepr (timeoutMs : JSTimeoutArg) : String :=
  match timeoutMs with
  | .infinity => "Infinity"
  | .num q =>
      if q.den = 1 then
        (if q.num < 0 then "-" ++ toString q.num.natAbs else toString q.num.natAbs)
      else "<non-integer>"
  | .nonNumber => "<non-number>"

/-- The timeout error message
(`Mutex lock acquisition timed out after ${timeoutMs}ms`,
`src/index.js` lines 125, 139, 172, 186). -/
def timeoutError (timeoutMs : JSTimeoutArg) : MutexError :=
  ⟨"Mutex lock acquisition timed out after " ++ jsTimeoutRepr timeoutMs ++ "ms"⟩

/-- The interruption error (`src/index.js` lines 142, 189). -/
def interruptedError : MutexError := ⟨"Mutex wait was interrupted"⟩

/-- The `while (true)` retry loop shared verbatim by `lock`
(`src/index.js` lines 122-144) and `lockSync` (lines 169-191); the only
textual difference between the two sources is `await waitAsync(...)`
versus `Atomics.wait(...)`, both of which are the `waitResult` oracle
here.  Each iteration: read `Date.now()`, fail on an elapsed deadline,
try the compare-and-swap, otherwise wait on the `Locked` value for the
remaining time and dispatch on the wait outcome. -/
def acquireLoop (buffer : MutexBuffer) (timeoutMs : JSTimeoutArg) (start : Int) :
    Int → List LoopRound → LockOut
  | word, [] => ⟨none, word, []⟩
  | word, r :: rest =>
    let w := r.interfere.getD word
    let elapsed : Int := r.now - start
    if timedOutByDeadline timeoutMs elapsed then
      ⟨some (.error (timeoutError timeoutMs)), w, [.readNow r.now]⟩
    else if w = LockStatus.Unlocked then
      ⟨some (.ok ⟨buffer⟩), LockStatus.Locked,
        [.readNow r.now, .cas w (some LockStatus.Locked)]⟩
    else
      let tmo := remainingTime timeoutMs elapsed
      match r.waitResult with
      | .timedOut =>
          ⟨some (.error (timeoutError timeoutMs)), w,
            [.readNow r.now, .cas w none, .wait LockStatus.Locked tmo .timedOut]⟩
      | .interrupted =>
          ⟨some (.error interruptedError), w,
            [.readNow r.now, .cas w none, .wait LockStatus.Locked tmo .interrupted]⟩
      | res =>
          let out := acquireLoop buffer timeoutMs start w rest
          ⟨out.result, out.word,
            .readNow r.now :: .cas w none :: .wait LockStatus.Locked tmo res :: out.events⟩

/-- `lock` (`src/index.js` lines 107-145): validate the buffer, validate
the timeout, record the start time, try the immediate compare-and-swap,
and otherwise enter the retry loop.  `start` and `rounds` are the time
and scheduling oracles. -/
def lock (buffer : MutexBuffer) (timeoutMs : JSTimeoutArg) (start : Int)
    (rounds : List LoopRound) : LockOut :=
  match validateMutexBuffer buffer with
  | .error e => ⟨some (.error e), buffer.word0, []⟩
  | .ok _ =>
    match validateTimeout timeoutMs with
    | .error e => ⟨some (.error e), buffer.word0, []⟩
    | .ok _ =>
      let word := buffer.word0
      if word = LockStatus.Unlocked then
        ⟨some (.ok ⟨buffer⟩), LockStatus.Locked,
          [.readNow start, .cas word (some LockStatus.Locked)]⟩
      else
        let out := acquireLoop buffer timeoutMs start word rounds
        ⟨out.result, out.word, .readNow start :: .cas word none :: out.events⟩

/-- `lockSync` (`src/index.js` lines 155-192): line-for-line the same
control flow as `lock`, with the blocking `Atomics.wait` in place of
`await waitAsync`; both are the `waitResult` oracle of the model. -/
def lockSync (buffer : MutexBuffer) (timeoutMs : JSTimeoutArg) (start : Int)
    (rounds : List LoopRound) : LockOut :=
  match validateMutexBuffer buffer with
  | .error e => ⟨some (.error e), buffer.word0, []⟩
  | .ok _ =>
    match validateTimeout timeoutMs with
    | .error e => ⟨some (.error e), buffer.word0, []⟩
    | .ok _ =>
      let word := buffer.word0
      if word = LockStatus.Unlocked then
        ⟨some (.ok ⟨buffer⟩), LockStatus.Locked,
          [.readNow start, .cas word (some LockStatus.Locked)]⟩
      else
        let out := acquireLoop buffer timeoutMs start word rounds
        ⟨out.result, out.word, .readNow start :: .cas word none :: out.events⟩

/-- Result of `unlock`: the error if one was thrown, the resulting lock
word, and whether `Atomics.notify` was invoked. -/
structure UnlockOut where
  error : Option MutexError
  word : Int
  notified : Bool
  deriving Repr, DecidableEq

/-- `unlock` (`src/index.js` lines 201-209): validate the buffer, then
`Atomics.compareExchange(buffer, 0, Locked, Unlocked)`; if the observed
prior value was not `Locked`, return silently when called from handle
disposal and throw `NotLocked` otherwise; on a successful transition,
notify all waiters. -/
def unlock (buffer : MutexBuffer) (word : Int) (fromDispose : Bool) : UnlockOut :=
  match validateMutexBuffer buffer with
  | .error e => ⟨some e, word, false⟩
  | .ok _ =>
    let currentState := word
    let word' := if word = LockStatus.Locked then LockStatus.Unlocked else word
    if currentState ≠ LockStatus.Locked then
      if fromDispose then ⟨none, word', false⟩
      else ⟨some ⟨"Cannot unlock mutex that is not locked"⟩, word', false⟩
    else
      ⟨none, word', true⟩

/-- `Handle[dispose]` (`src/index.js` line 118/132): `unlock(buffer, true)`
on the handle's captured buffer, applied to the current lock word. -/
def LockHandle.release (h : LockHandle) (word : Int) : UnlockOut :=
  unlock h.buffer word true

/-- Buffer of `createMutex` (`src/index.js` lines 300-302): a one-word
`Int32Array` over a fresh 4-byte `SharedArrayBuffer`, word initialized
`Unlocked`. -/
def createMutex : MutexBuffer :=
  ⟨true, true, [LockStatus.Unlocked]⟩

/-- `isLocked` (`src/index.js` line 310):
`Atomics.load(buffer, 0) === LockStatus.Locked`. -/
def isLocked (word : Int) : Bool := word = LockStatus.Locked

/-- A JS value passed where a string identifier is expected. -/
inductive JSStringArg where
  | str (s : String)
  | nonString
  deriving Repr, DecidableEq

/-- `createBufferFromString` (`src/index.js` lines 219-248), as the byte
contents of the constructed `SharedArrayBuffer`: reject empty or
non-string input (`!input || typeof input !== 'string'`); otherwise lay
out a 4-byte zero lock word (`int32View[0] = Unlocked`), the UTF-8 bytes
of the identifier at offset 4 (`uint8View.set(bytes, headerSize)`), and
zero padding up to `Math.ceil(totalSize / 4) * 4` bytes (a fresh
`SharedArrayBuffer` is zero-initialized, and the source re-fills the tail
with zeros explicitly). -/
def createBufferFromString (input : JSStringArg) : Except MutexError (List Nat) :=
  match input with
  | .nonString => .error ⟨"Invalid input: must be a non-empty string"⟩
  | .str s =>
    if s.isEmpty then .error ⟨"Invalid input: must be a non-empty string"⟩
    else
      let bytes := s.toUTF8.toList.map UInt8.toNat
      let headerSize := 4
      let totalSize := headerSize + bytes.length
      let alignedSize := ((totalSize + 3) / 4) * 4
      .ok (List.replicate 4 0 ++ bytes ++ List.replicate (alignedSize - totalSize) 0)

/-- The mutex argument of `rapidGuard`: either a value failing the
`!mutex || typeof mutex.lock !== 'function'` test, or a mutex object
whose `lock` is the real acquisition over its buffer. -/
inductive GuardMutexArg where
  | noLockMethod
  | mutex (buffer : MutexBuffer)
  deriving Repr, DecidableEq

instance : DecidableEq (Except String Int) := fun a b =>
  match a, b with
  | .error x, .error y =>
      if h : x = y then .isTrue (by rw [h]) else .isFalse (by simp [h])
  | .ok x, .ok y =>
      if h : x = y then .isTrue (by rw [h]) else .isFalse (by simp [h])
  | .error _, .ok _ => .isFalse (by simp)
  | .ok _, .error _ => .isFalse (by simp)

/-- The work-unit argument of `rapidGuard`: either a non-callable value,
or a callable whose (awaited) outcome is a return value or a thrown
error. -/
inductive GuardFnArg where
  | notCallable
  | callable (outcome : Except String Int)
  deriving Repr, DecidableEq

/-- What `rapidGuard` propagates to its caller. -/
inductive GuardResult where
  | ok (v : Int)
  | fnThrew (e : String)
  | mutexError (e : MutexError)
  deriving Repr, DecidableEq

/-- Result of a `rapidGuard` run: the propagated outcome (`none` while the
inner acquisition is still looping), the final lock word of the mutex's
buffer (0 when there is no buffer), whether the work unit ran, and
whether the handle's dispose was invoked. -/
structure GuardOut where
  result : Option GuardResult
  word : Int
  fnRan : Bool
  disposeCalled : Bool
  deriving Repr, DecidableEq

/-- `rapidGuard` (`src/index.js` lines 398-412): validate the mutex and
the work unit, `await mutex.lock(timeoutMs)`, then
`try { return await fn() } finally { lockHandle[dispose]() }` — the
dispose runs before either the return value or the thrown error reaches
the caller. -/
def rapidGuard (mutex : GuardMutexArg) (fn : GuardFnArg) (timeoutMs : JSTimeoutArg)
    (start : Int) (rounds : List LoopRound) : GuardOut :=
  match mutex with
  | .noLockMethod =>
      ⟨some (.mutexError ⟨"Invalid mutex: must be a mutex object with lock method"⟩),
        0, false, false⟩
  | .mutex buffer =>
    match fn with
    | .notCallable =>
        ⟨some (.mutexError ⟨"Invalid function: must provide a function to execute"⟩),
          buffer.word0, false, false⟩
    | .callable outcome =>
      let acq := lock buffer timeoutMs start rounds
      match acq.result with
      | none => ⟨none, acq.word, false, false⟩
      | some (.error e) => ⟨some (.mutexError e), acq.word, false, false⟩
      | some (.ok h) =>
        let rel := h.release acq.word
        match outcome with
        | .ok v => ⟨some (.ok v), rel.word, true, true⟩
        | .error e => ⟨some (.fnThrew e), rel.word, true, true⟩

/-- Recognizer for wait events in a trace. -/
def AtomicEvent.isWait : AtomicEvent → Bool
  | .wait _ _ _ => true
  | _ => false

/-- Values stored into the lock word by the traced attempt itself (the
successful compare-and-swap exchanges). -/
def storedWrites (events : List AtomicEvent) : List Int :=
  events.filterMap fun e =>
    match e with
    | .cas _ (some v) => some v
    | _ => none

/-! ## General lemmas about the model -/

/-- `lockSync` runs the same algorithm as `lock`; the sources differ only
in the wait primitive, which is the oracle of the model. -/
theorem lockSync_eq_lock : lockSync = lock := rfl

/-- Any error produced inside the retry loop is the timeout error (with
the original timeout interpolated) or the interruption error. -/
theorem acquireLoop_error_mesg (buffer : MutexBuffer) (t : JSTimeoutArg) (start : Int) :
    ∀ (rounds : List LoopRound) (word : Int) (e : MutexError),
      (acquireLoop buffer t start word rounds).result = some (.error e) →
      e = timeoutError t ∨ e = interruptedError := by
  intro rounds
  induction rounds with
  | nil =>
      intro word e h
      simp [acquireLoop] at h
  | cons r rest ih =>
      intro word e h
      obtain ⟨intf, now, wres⟩ := r
      cases wres <;> simp only [acquireLoop] at h <;>
        split at h <;> (try split at h) <;> simp_all <;>
        exact ih _ _ h

/-- A run of the retry loop either succeeds (returning the handle for its
buffer) or performs no store at all; in the latter case, absent
interference, it leaves the lock word exactly as it found it. -/
theorem acquireLoop_frame (buffer : MutexBuffer) (t : JSTimeoutArg) (start : Int) :
    ∀ (rounds : List LoopRound) (word : Int),
      (acquireLoop buffer t start word rounds).result = some (.ok ⟨buffer⟩) ∨
      (storedWrites (acquireLoop buffer t start word rounds).events = [] ∧
        ((∀ r ∈ rounds, r.interfere = none) →
          (acquireLoop buffer t start word rounds).word = word)) := by
  intro rounds
  induction rounds with
  | nil =>
      intro word
      right
      simp [acquireLoop, storedWrites]
  | cons r rest ih =>
      intro word
      obtain ⟨intf, now, wres⟩ := r
      by_cases hd : timedOutByDeadline t (now - start)
      · right
        refine ⟨by simp [acquireLoop, hd, storedWrites], ?_⟩
        intro hall
        have hintf : intf = none := hall _ (List.mem_cons_self _ _)
        subst hintf
        simp [acquireLoop, hd]
      · by_cases hw : intf.getD word = LockStatus.Unlocked
        · left
          cases wres <;> simp [acquireLoop, hd, hw]
        · cases wres with
          | ok =>
              rcases ih (intf.getD word) with hok | ⟨hwr, hpres⟩
              · left
                simp [acquireLoop, hd, hw, hok]
              · right
                refine ⟨by simpa [acquireLoop, hd, hw, storedWrites] using hwr, ?_⟩
                intro hall
                have hintf : intf = none := hall _ (List.mem_cons_self _ _)
                subst hintf
                have htail : ∀ r ∈ rest, r.interfere = none := fun r hr =>
                  hall r (List.mem_cons_of_mem _ hr)
                have hpres2 := hpres htail
                simp only [Option.getD_none] at hw hpres2
                simp [acquireLoop, hd, hw, hpres2]
          | notEqual =>
              rcases ih (intf.getD word) with hok | ⟨hwr, hpres⟩
              · left
                simp [acquireLoop, hd, hw, hok]
              · right
                refine ⟨by simpa [acquireLoop, hd, hw, storedWrites] using hwr, ?_⟩
                intro hall
                have hintf : intf = none := hall _ (List.mem_cons_self _ _)
                subst hintf
                have htail : ∀ r ∈ rest, r.interfere = none := fun r hr =>
                  hall r (List.mem_cons_of_mem _ hr)
                have hpres2 := hpres htail
                simp only [Option.getD_none] at hw hpres2
                simp [acquireLoop, hd, hw, hpres2]
          | timedOut =>
              right
              refine ⟨by simp [acquireLoop, hd, hw, storedWrites], ?_⟩
              intro hall
              have hintf : intf = none := hall _ (List.mem_cons_self _ _)
              subst hintf
              simp only [Option.getD_none] at hw
              simp [acquireLoop, hd, hw]
          | interrupted =>
              right
              refine ⟨by simp [acquireLoop, hd, hw, storedWrites], ?_⟩
              intro hall
              have hintf : intf = none := hall _ (List.mem_cons_self _ _)
              subst hintf
              simp only [Option.getD_none] at hw
              simp [acquireLoop, hd, hw]

/-- A successful run of the retry loop hands out the handle for its own
buffer and leaves the lock word `Locked`. -/
theorem acquireLoop_ok_facts (buffer : MutexBuffer) (t : JSTimeoutArg) (start : Int) :
    ∀ (rounds : List LoopRound) (word : Int) (h : LockHandle),
      (acquireLoop buffer t start word rounds).result = some (.ok h) →
      h = ⟨buffer⟩ ∧ (acquireLoop buffer t start word rounds).word = LockStatus.Locked := by
  intro rounds
  induction rounds with
  | nil =>
      intro word h hres
      simp [acquireLoop] at hres
  | cons r rest ih =>
      intro word h hres
      obtain ⟨intf, now, wres⟩ := r
      by_cases hd : timedOutByDeadline t (now - start)
      · simp [acquireLoop, hd] at hres
      · by_cases hw : intf.getD word = LockStatus.Unlocked
        · cases wres <;> simp_all [acquireLoop, hd, hw]
        · cases wres with
          | ok =>
              simp only [acquireLoop] at hres ⊢
              simp [hd, hw] at hres ⊢
              exact ih (intf.getD word) h hres
          | notEqual =>
              simp only [acquireLoop] at hres ⊢
              simp [hd, hw] at hres ⊢
              exact ih (intf.getD word) h hres
          | timedOut => simp [acquireLoop, hd, hw] at hres
          | interrupted => simp [acquireLoop, hd, hw] at hres

/-- A successful `lock` passed validation, returns the handle for its own
buffer, and leaves the lock word `Locked`. -/
theorem lock_ok_facts (buffer : MutexBuffer) (t : JSTimeoutArg) (start : Int)
    (rounds : List LoopRound) (h : LockHandle)
    (hres : (lock buffer t start rounds).result = some (.ok h)) :
    h = ⟨buffer⟩ ∧ validateMutexBuffer buffer = .ok () ∧
      (lock buffer t start rounds).word = LockStatus.Locked := by
  unfold lock at hres ⊢
  rcases hv : validateMutexBuffer buffer with e | u
  · simp [hv] at hres
  · cases u
    rcases ht : validateTimeout t with e | u
    · simp [hv, ht] at hres
    · cases u
      by_cases hw : buffer.word0 = LockStatus.Unlocked
      · simp_all [hv, ht, hw]
      · simp only [hv, ht] at hres ⊢
        simp [hw] at hres ⊢
        exact ⟨(acquireLoop_ok_facts buffer t start rounds buffer.word0 h hres).1,
               (acquireLoop_ok_facts buffer t start rounds buffer.word0 h hres).2⟩

/-- Once validation has passed, any error `lock` produces is the timeout
error or the interruption error. -/
theorem lock_error_mesg (buffer : MutexBuffer) (t : JSTimeoutArg) (start : Int)
    (rounds : List LoopRound) (e : MutexError)
    (hbuf : validateMutexBuffer buffer = .ok ())
    (htmo : validateTimeout t = .ok ())
    (hres : (lock buffer t start rounds).result = some (.error e)) :
    e = timeoutError t ∨ e = interruptedError := by
  unfold lock at hres
  by_cases hw : buffer.word0 = LockStatus.Unlocked
  · simp [hbuf, htmo, hw] at hres
  · simp [hbuf, htmo, hw] at hres
    exact acquireLoop_error_mesg buffer t start rounds buffer.word0 e hres

/-- Claim C1: for a freshly created mutex, an uncontended acquisition
succeeds and returns a handle; `isLocked` then reports true; after the
handle's release, `isLocked` reports false and the lock word is
`Unlocked` again. -/
theorem c1_create_lock_release_cycle :
    (lock createMutex .infinity 0 []).result = some (.ok ⟨createMutex⟩) ∧
    isLocked (lock createMutex .infinity 0 []).word = true ∧
    (LockHandle.release ⟨createMutex⟩ (lock createMutex .infinity 0 []).word).error = none ∧
    isLocked (LockHandle.release ⟨createMutex⟩ (lock createMutex .infinity 0 []).word).word
      = false ∧
    (LockHandle.release ⟨createMutex⟩ (lock createMutex .infinity 0 []).word).word
      = LockStatus.Unlocked := by
  decide

/-- Claim C2: on a valid buffer whose lock word is `Unlocked`, `lock` and
`lockSync` succeed for every valid timeout via the first compare-and-swap
— the whole event trace is the start-time reading plus that single
exchange — and never invoke the wait primitive. -/
theorem c2_fast_path_no_wait (buffer : MutexBuffer) (timeoutMs : JSTimeoutArg)
    (start : Int) (rounds : List LoopRound)
    (hbuf : validateMutexBuffer buffer = .ok ())
    (htmo : validateTimeout timeoutMs = .ok ())
    (hword : buffer.word0 = LockStatus.Unlocked) :
    lock buffer timeoutMs start rounds =
      ⟨some (.ok ⟨buffer⟩), LockStatus.Locked,
        [.readNow start, .cas LockStatus.Unlocked (some LockStatus.Locked)]⟩ ∧
    lockSync buffer timeoutMs start rounds =
      ⟨some (.ok ⟨buffer⟩), LockStatus.Locked,
        [.readNow start, .cas LockStatus.Unlocked (some LockStatus.Locked)]⟩ ∧
    (lock buffer timeoutMs start rounds).events.filter AtomicEvent.isWait = [] := by
  have h : lock buffer timeoutMs start rounds =
      ⟨some (.ok ⟨buffer⟩), LockStatus.Locked,
        [.readNow start, .cas LockStatus.Unlocked (some LockStatus.Locked)]⟩ := by
    simp [lock, hbuf, htmo, hword]
  refine ⟨h, by rw [lockSync_eq_lock]; exact h, ?_⟩
  rw [h]
  simp [AtomicEvent.isWait]

/-- Witness for C2 at the mutex of `createMutex`, timeout 0. -/
theorem c2_fast_path_no_wait_witness :
    validateMutexBuffer createMutex = .ok () ∧
    validateTimeout (.num 0) = .ok () ∧
    createMutex.word0 = LockStatus.Unlocked ∧
    lock createMutex (.num 0) 7 [] =
      ⟨some (.ok ⟨createMutex⟩), LockStatus.Locked,
        [.readNow 7, .cas LockStatus.Unlocked (some LockStatus.Locked)]⟩ :=
  ⟨rfl, rfl, rfl,
    (c2_fast_path_no_wait createMutex (.num 0) 7 [] rfl rfl rfl).1⟩

/-- Claim C5: a timeout argument that is neither the `Infinity` sentinel
nor a non-negative number makes `lock` and `lockSync` fail immediately
with the invalid-timeout error, with an empty event trace — before any
`Date.now` reading and before any atomic operation on the buffer. -/
theorem c5_invalid_timeout_fails_before_anything (buffer : MutexBuffer)
    (timeoutMs : JSTimeoutArg) (start : Int) (rounds : List LoopRound)
    (hbuf : validateMutexBuffer buffer = .ok ())
    (hinf : timeoutMs ≠ .infinity)
    (hnum : ∀ q : ℚ, timeoutMs = .num q → q < 0) :
    lock buffer timeoutMs start rounds =
      ⟨some (.error ⟨"Timeout must be a non-negative number or Infinity"⟩),
        buffer.word0, []⟩ ∧
    lockSync buffer timeoutMs start rounds =
      ⟨some (.error ⟨"Timeout must be a non-negative number or Infinity"⟩),
        buffer.word0, []⟩ := by
  have h : lock buffer timeoutMs start rounds =
      ⟨some (.error ⟨"Timeout must be a non-negative number or Infinity"⟩),
        buffer.word0, []⟩ := by
    cases timeoutMs with
    | infinity => exact absurd rfl hinf
    | num q =>
        have hq : q < 0 := hnum q rfl
        simp [lock, hbuf, validateTimeout, hq]
    | nonNumber => simp [lock, hbuf, validateTimeout]
  exact ⟨h, by rw [lockSync_eq_lock]; exact h⟩

/-- Witness for C5 at a negative numeric timeout. -/
theorem c5_invalid_timeout_witness :
    validateMutexBuffer createMutex = .ok () ∧
    (JSTimeoutArg.num (-1) ≠ .infinity) ∧
    lock createMutex (.num (-1)) 0 [] =
      ⟨some (.error ⟨"Timeout must be a non-negative number or Infinity"⟩),
        createMutex.word0, []⟩ :=
  ⟨rfl, by decide,
    (c5_invalid_timeout_fails_before_anything createMutex (.num (-1)) 0 [] rfl
      (by decide) (fun q hq => by cases hq; norm_num)).1⟩

/-- Claim C10: the standalone `unlock` on a word that is not `Locked`
throws the `NotLocked` error, leaves the lock word exactly as it was,
and issues no notification. -/
theorem c10_unlock_not_locked_atomic_failure (buffer : MutexBuffer) (word : Int)
    (hbuf : validateMutexBuffer buffer = .ok ())
    (hword : word ≠ LockStatus.Locked) :
    unlock buffer word false =
      ⟨some ⟨"Cannot unlock mutex that is not locked"⟩, word, false⟩ := by
  simp [unlock, hbuf, hword]

/-- Witness for C10 on a fresh unlocked mutex. -/
theorem c10_unlock_not_locked_witness :
    validateMutexBuffer createMutex = .ok () ∧
    ((0 : Int) ≠ LockStatus.Locked) ∧
    unlock createMutex 0 false =
      ⟨some ⟨"Cannot unlock mutex that is not locked"⟩, 0, false⟩ :=
  ⟨rfl, by decide, c10_unlock_not_locked_atomic_failure createMutex 0 rfl (by decide)⟩

/-- Claim C3 (counterexample): a handle is issued on a fresh mutex and
released; a second acquisition then re-locks the buffer; invoking the
same handle's release again does not throw — but it changes the lock
word (from `Locked` back to `Unlocked`), releasing the re-acquirer's
lock, so "leaves the lock word unchanged even if the lock has since been
re-acquired by another participant" is false. -/
theorem c3_second_release_counterexample :
    (lock createMutex .infinity 0 []).result = some (.ok ⟨createMutex⟩) ∧
    (LockHandle.release ⟨createMutex⟩ (lock createMutex .infinity 0 []).word).word
      = LockStatus.Unlocked ∧
    (lock createMutex .infinity 1 []).result = some (.ok ⟨createMutex⟩) ∧
    isLocked (lock createMutex .infinity 1 []).word = true ∧
    (LockHandle.release ⟨createMutex⟩ (lock createMutex .infinity 1 []).word).error
      = none ∧
    (LockHandle.release ⟨createMutex⟩ (lock createMutex .infinity 1 []).word).word
      ≠ (lock createMutex .infinity 1 []).word := by
  decide

/-- Claim C3 (amended): a second release attempt on the same handle never
throws; when the lock word is `Unlocked` it leaves the word unchanged and
issues no notification, but when the lock has since been re-acquired
(word `Locked`) the release transitions the word back to `Unlocked`;
the standalone `unlock` on an `Unlocked` word raises the `NotLocked`
error. -/
theorem c3_amended_release_idempotence (buffer : MutexBuffer) (word : Int)
    (hbuf : validateMutexBuffer buffer = .ok ()) :
    (LockHandle.release ⟨buffer⟩ word).error = none ∧
    (word ≠ LockStatus.Locked →
      (LockHandle.release ⟨buffer⟩ word).word = word ∧
      (LockHandle.release ⟨buffer⟩ word).notified = false) ∧
    (word = LockStatus.Locked →
      (LockHandle.release ⟨buffer⟩ word).word = LockStatus.Unlocked) ∧
    (unlock buffer LockStatus.Unlocked false).error =
      some ⟨"Cannot unlock mutex that is not locked"⟩ := by
  have hne : LockStatus.Unlocked ≠ LockStatus.Locked := by decide
  by_cases hword : word = LockStatus.Locked
  · subst hword
    refine ⟨?_, ?_, ?_, ?_⟩ <;> simp [LockHandle.release, unlock, hbuf, hne]
  · refine ⟨?_, ?_, ?_, ?_⟩ <;> simp [LockHandle.release, unlock, hbuf, hword, hne]

/-- Witness for the amended C3 on a fresh unlocked mutex. -/
theorem c3_amended_release_idempotence_witness :
    validateMutexBuffer createMutex = .ok () ∧
    (LockHandle.release ⟨createMutex⟩ 0).error = none ∧
    ((0 : Int) ≠ LockStatus.Locked → (LockHandle.release ⟨createMutex⟩ 0).word = 0 ∧
      (LockHandle.release ⟨createMutex⟩ 0).notified = false) ∧
    (unlock createMutex LockStatus.Unlocked false).error =
      some ⟨"Cannot unlock mutex that is not locked"⟩ :=
  ⟨rfl, (c3_amended_release_idempotence createMutex 0 rfl).1,
    (c3_amended_release_idempotence createMutex 0 rfl).2.1,
    (c3_amended_release_idempotence createMutex 0 rfl).2.2.2⟩

/-- Claim C4 (counterexample): a run of `lock` on a contended buffer with
a 10ms budget in which the wait primitive returns `woken` at 5ms and the
next `Date.now` reading is 20ms: after the wait event the only further
event is the `Date.now` reading of the deadline check, and the run ends
in the timeout error — no compare-and-swap is attempted between the wait
returning `woken` and the failure, contrary to the claim. -/
theorem c4_loop_reentry_counterexample :
    lock ⟨true, true, [1]⟩ (.num 10) 0 [⟨none, 5, .ok⟩, ⟨none, 20, .ok⟩] =
      ⟨some (.error (timeoutError (.num 10))), 1,
        [.readNow 0, .cas 1 none, .readNow 5, .cas 1 none,
          .wait 1 (remainingTime (.num 10) (5 - 0)) .ok, .readNow 20]⟩ := rfl

/-- Claim C4 (amended): in the loop shared by `lock` and `lockSync`, when
the wait primitive returns `woken` or `value-mismatch` control loops back
to the top of the loop, whose first action is the deadline check on a
fresh `Date.now` reading — and an iteration whose deadline check fires
raises the timeout error immediately, performing no compare-and-swap in
that iteration (its event list is the `Date.now` reading alone). -/
theorem c4_amended_loop_reentry (buffer : MutexBuffer) (t : JSTimeoutArg)
    (start word : Int) (r : LoopRound) (rest : List LoopRound)
    (hw : r.interfere.getD word ≠ LockStatus.Unlocked)
    (hd : timedOutByDeadline t (r.now - start) = false)
    (hr : r.waitResult = .ok ∨ r.waitResult = .notEqual) :
    acquireLoop buffer t start word (r :: rest) =
      ⟨(acquireLoop buffer t start (r.interfere.getD word) rest).result,
        (acquireLoop buffer t start (r.interfere.getD word) rest).word,
        .readNow r.now :: .cas (r.interfere.getD word) none ::
          .wait LockStatus.Locked (remainingTime t (r.now - start)) r.waitResult ::
          (acquireLoop buffer t start (r.interfere.getD word) rest).events⟩ ∧
    (∀ (word' : Int) (r' : LoopRound) (rest' : List LoopRound),
      timedOutByDeadline t (r'.now - start) = true →
      acquireLoop buffer t start word' (r' :: rest') =
        ⟨some (.error (timeoutError t)), r'.interfere.getD word',
          [.readNow r'.now]⟩) := by
  constructor
  · obtain ⟨intf, now, wres⟩ := r
    simp only at hw hd hr ⊢
    rcases hr with h | h <;> subst h <;> simp [acquireLoop, hd, hw]
  · intro word' r' rest' hd'
    obtain ⟨intf', now', wres'⟩ := r'
    simp only at hd' ⊢
    cases wres' <;> simp [acquireLoop, hd']

/-- Witness for the amended C4 on a contended buffer with a 10ms budget. -/
theorem c4_amended_loop_reentry_witness :
    ((LoopRound.mk none 5 .ok).interfere.getD 1 ≠ LockStatus.Unlocked) ∧
    timedOutByDeadline (.num 10) ((LoopRound.mk none 5 .ok).now - 0) = false ∧
    acquireLoop ⟨true, true, [1]⟩ (.num 10) 0 1 [⟨none, 5, .ok⟩] =
      ⟨(acquireLoop ⟨true, true, [1]⟩ (.num 10) 0 1 []).result,
        (acquireLoop ⟨true, true, [1]⟩ (.num 10) 0 1 []).word,
        .readNow 5 :: .cas 1 none ::
          .wait LockStatus.Locked (remainingTime (.num 10) (5 - 0)) .ok ::
          (acquireLoop ⟨true, true, [1]⟩ (.num 10) 0 1 []).events⟩ :=
  ⟨by decide, by decide,
    (c4_amended_loop_reentry ⟨true, true, [1]⟩ (.num 10) 0 1 ⟨none, 5, .ok⟩ []
      (by decide) (by decide) (Or.inl rfl)).1⟩

theorem storedWrites_readNow (t : Int) (evs : List AtomicEvent) :
    storedWrites (.readNow t :: evs) = storedWrites evs := by
  simp [storedWrites]

theorem storedWrites_casNone (w : Int) (evs : List AtomicEvent) :
    storedWrites (.cas w none :: evs) = storedWrites evs := by
  simp [storedWrites]

theorem validateTimeout_natCast (n : ℕ) : validateTimeout (.num (n : ℚ)) = .ok () := by
  rw [validateTimeout]
  rw [if_neg (not_lt.mpr (by positivity))]

theorem jsTimeoutRepr_natCast (n : ℕ) : jsTimeoutRepr (.num (n : ℚ)) = toString n := by
  simp [jsTimeoutRepr, Rat.den_natCast, Rat.num_natCast]

/-- Claim C6: every failed acquisition attempt — validation error,
timeout, or interruption — performs no store on the lock word, and,
absent interference from other participants, leaves the word exactly as
the attempt found it; likewise for `lockSync`. -/
theorem c6_failed_attempt_never_mutates (buffer : MutexBuffer) (t : JSTimeoutArg)
    (start : Int) (rounds : List LoopRound) (e : MutexError)
    (hres : (lock buffer t start rounds).result = some (.error e)) :
    storedWrites (lock buffer t start rounds).events = [] ∧
    ((∀ r ∈ rounds, r.interfere = none) →
      (lock buffer t start rounds).word = buffer.word0) ∧
    storedWrites (lockSync buffer t start rounds).events = [] ∧
    ((∀ r ∈ rounds, r.interfere = none) →
      (lockSync buffer t start rounds).word = buffer.word0) := by
  have key : storedWrites (lock buffer t start rounds).events = [] ∧
      ((∀ r ∈ rounds, r.interfere = none) →
        (lock buffer t start rounds).word = buffer.word0) := by
    unfold lock at hres ⊢
    rcases hv : validateMutexBuffer buffer with e' | u
    · simp [hv, storedWrites]
    · cases u
      rcases ht : validateTimeout t with e' | u
      · simp [hv, ht, storedWrites]
      · cases u
        by_cases hw : buffer.word0 = LockStatus.Unlocked
        · simp [hv, ht, hw] at hres
        · simp only [hv, ht] at hres ⊢
          simp only [hw, if_false, ite_false] at hres ⊢
          rcases acquireLoop_frame buffer t start rounds buffer.word0 with hok | ⟨hwr, hpres⟩
          · rw [hok] at hres
            simp at hres
          · exact ⟨by rw [storedWrites_readNow, storedWrites_casNone]; exact hwr, hpres⟩
  exact ⟨key.1, key.2,
    by rw [lockSync_eq_lock]; exact key.1,
    by rw [lockSync_eq_lock]; exact key.2⟩

/-- Witness for C6 on a contended buffer timing out inside the wait. -/
theorem c6_failed_attempt_never_mutates_witness :
    (lock ⟨true, true, [1]⟩ (.num 10) 0 [⟨none, 5, .timedOut⟩]).result =
      some (.error (timeoutError (.num 10))) ∧
    storedWrites (lock ⟨true, true, [1]⟩ (.num 10) 0 [⟨none, 5, .timedOut⟩]).events = [] ∧
    ((∀ r ∈ [LoopRound.mk none 5 .timedOut], r.interfere = none) →
      (lock ⟨true, true, [1]⟩ (.num 10) 0 [⟨none, 5, .timedOut⟩]).word =
        MutexBuffer.word0 ⟨true, true, [1]⟩) :=
  ⟨rfl,
    (c6_failed_attempt_never_mutates ⟨true, true, [1]⟩ (.num 10) 0
      [⟨none, 5, .timedOut⟩] (timeoutError (.num 10)) rfl).1,
    (c6_failed_attempt_never_mutates ⟨true, true, [1]⟩ (.num 10) 0
      [⟨none, 5, .timedOut⟩] (timeoutError (.num 10)) rfl).2.1⟩

/-- Claim C7: when an acquisition with a finite integer timeout `n` fails
with anything other than the interruption error (i.e. with either of the
two timeout failures), the error message ends with the literal value `n`
followed by `"ms"`; the identical run of `lockSync` fails with the same
error. -/
theorem c7_timeout_error_message (buffer : MutexBuffer) (n : ℕ) (start : Int)
    (rounds : List LoopRound) (e : MutexError)
    (hbuf : validateMutexBuffer buffer = .ok ())
    (hres : (lock buffer (.num (n : ℚ)) start rounds).result = some (.error e))
    (hni : e ≠ interruptedError) :
    (∃ p, e.message = p ++ toString n ++ "ms") ∧
    (lockSync buffer (.num (n : ℚ)) start rounds).result = some (.error e) := by
  rcases lock_error_mesg buffer (.num (n : ℚ)) start rounds e hbuf
      (validateTimeout_natCast n) hres with h | h
  · subst h
    refine ⟨⟨"Mutex lock acquisition timed out after ", ?_⟩,
      by rw [lockSync_eq_lock]; exact hres⟩
    simp [timeoutError, jsTimeoutRepr_natCast]
  · exact absurd h hni

/-- Witness for C7: a 10ms acquisition that times out inside the wait. -/
theorem c7_timeout_error_message_witness :
    validateMutexBuffer ⟨true, true, [1]⟩ = .ok () ∧
    (lock ⟨true, true, [1]⟩ (.num ((10:ℕ) : ℚ)) 0 [⟨none, 5, .timedOut⟩]).result =
      some (.error (timeoutError (.num ((10:ℕ) : ℚ)))) ∧
    (∃ p, (timeoutError (.num ((10:ℕ) : ℚ))).message = p ++ toString (10:ℕ) ++ "ms") :=
  ⟨rfl, rfl,
    (c7_timeout_error_message ⟨true, true, [1]⟩ 10 0 [⟨none, 5, .timedOut⟩]
      (timeoutError (.num ((10:ℕ) : ℚ))) rfl rfl (by decide)).1⟩

/-- Claim C8: `rapidGuard` fails fast (no work-unit run, no dispose) with
the invalid-mutex error when the mutex lacks a `lock` method and with the
invalid-function error when the work unit is not callable; when the inner
acquisition fails its error is propagated with the work unit never run;
when the acquisition succeeds, the work unit runs, the handle's dispose
is invoked on both the return and the throw path, the work unit's outcome
is propagated unchanged, and the lock word ends `Unlocked`. -/
theorem c8_rapidGuard_contract (buffer : MutexBuffer) (fn : GuardFnArg)
    (o : Except String Int) (t : JSTimeoutArg) (start : Int) (rounds : List LoopRound) :
    rapidGuard .noLockMethod fn t start rounds =
      ⟨some (.mutexError ⟨"Invalid mutex: must be a mutex object with lock method"⟩),
        0, false, false⟩ ∧
    rapidGuard (.mutex buffer) .notCallable t start rounds =
      ⟨some (.mutexError ⟨"Invalid function: must provide a function to execute"⟩),
        buffer.word0, false, false⟩ ∧
    (∀ e, (lock buffer t start rounds).result = some (.error e) →
      rapidGuard (.mutex buffer) (.callable o) t start rounds =
        ⟨some (.mutexError e), (lock buffer t start rounds).word, false, false⟩) ∧
    (∀ h, (lock buffer t start rounds).result = some (.ok h) →
      (rapidGuard (.mutex buffer) (.callable o) t start rounds).fnRan = true ∧
      (rapidGuard (.mutex buffer) (.callable o) t start rounds).disposeCalled = true ∧
      (rapidGuard (.mutex buffer) (.callable o) t start rounds).result =
        some (match o with | .ok v => GuardResult.ok v | .error s => GuardResult.fnThrew s) ∧
      (rapidGuard (.mutex buffer) (.callable o) t start rounds).word =
        LockStatus.Unlocked) := by
  refine ⟨rfl, rfl, ?_, ?_⟩
  · intro e he
    simp [rapidGuard, he]
  · intro h hok
    obtain ⟨hh, hbuf, hword⟩ := lock_ok_facts buffer t start rounds h hok
    subst hh
    cases o <;>
      simp [rapidGuard, hok, LockHandle.release, unlock, hbuf, hword]

/-- Witness for C8: a guarded unit of work returning 42 on a fresh mutex. -/
theorem c8_rapidGuard_contract_witness :
    (lock createMutex .infinity 0 []).result = some (.ok ⟨createMutex⟩) ∧
    (rapidGuard (.mutex createMutex) (.callable (.ok 42)) .infinity 0 []).fnRan = true ∧
    (rapidGuard (.mutex createMutex) (.callable (.ok 42)) .infinity 0 []).disposeCalled
      = true ∧
    (rapidGuard (.mutex createMutex) (.callable (.ok 42)) .infinity 0 []).result =
      some (GuardResult.ok 42) ∧
    (rapidGuard (.mutex createMutex) (.callable (.ok 42)) .infinity 0 []).word =
      LockStatus.Unlocked :=
  ⟨rfl,
    ((c8_rapidGuard_contract createMutex (.callable (.ok 42)) (.ok 42) .infinity 0
      []).2.2.2 ⟨createMutex⟩ rfl).1,
    ((c8_rapidGuard_contract createMutex (.callable (.ok 42)) (.ok 42) .infinity 0
      []).2.2.2 ⟨createMutex⟩ rfl).2.1,
    ((c8_rapidGuard_contract createMutex (.callable (.ok 42)) (.ok 42) .infinity 0
      []).2.2.2 ⟨createMutex⟩ rfl).2.2.1,
    ((c8_rapidGuard_contract createMutex (.callable (.ok 42)) (.ok 42) .infinity 0
      []).2.2.2 ⟨createMutex⟩ rfl).2.2.2⟩

/-- Claim C9: for a non-empty string identifier the derived buffer starts
with four zero bytes (the `Unlocked` 32-bit lock word), carries the UTF-8
bytes of the identifier from offset 4, is zero in every byte beyond them,
and has total length a multiple of 4; empty and non-string inputs fail
with the invalid-input error. -/
theorem c9_buffer_layout (s : String) (hne : s ≠ "") :
    ∃ l, createBufferFromString (.str s) = .ok l ∧
      l.take 4 = [0, 0, 0, 0] ∧
      (l.drop 4).take (s.toUTF8.toList.map UInt8.toNat).length =
        s.toUTF8.toList.map UInt8.toNat ∧
      (∀ b ∈ l.drop (4 + (s.toUTF8.toList.map UInt8.toNat).length), b = 0) ∧
      l.length % 4 = 0 ∧
      createBufferFromString (.str "") =
        .error ⟨"Invalid input: must be a non-empty string"⟩ ∧
      createBufferFromString .nonString =
        .error ⟨"Invalid input: must be a non-empty string"⟩ := by
  have hempty : s.isEmpty = false := by
    rw [Bool.eq_false_iff]
    intro h
    exact hne ((String.isEmpty_iff s).mp h)
  refine ⟨List.replicate 4 0 ++ s.toUTF8.toList.map UInt8.toNat ++
      List.replicate ((4 + (s.toUTF8.toList.map UInt8.toNat).length + 3) / 4 * 4 -
        (4 + (s.toUTF8.toList.map UInt8.toNat).length)) 0,
    ?_, ?_, ?_, ?_, ?_, rfl, rfl⟩
  · simp [createBufferFromString, hempty]
  · rw [List.append_assoc, List.take_left' (by simp)]
    rfl
  · rw [List.append_assoc, List.drop_left' (by simp)]
    exact List.take_left' rfl
  · rw [List.drop_left' (by simp; omega)]
    intro b hb
    exact List.eq_of_mem_replicate hb
  · have hge : 4 + (s.toUTF8.toList.map UInt8.toNat).length ≤
        (4 + (s.toUTF8.toList.map UInt8.toNat).length + 3) / 4 * 4 := by omega
    have hlen : (List.replicate 4 0 ++ s.toUTF8.toList.map UInt8.toNat ++
        List.replicate ((4 + (s.toUTF8.toList.map UInt8.toNat).length + 3) / 4 * 4 -
          (4 + (s.toUTF8.toList.map UInt8.toNat).length)) 0).length =
        (4 + (s.toUTF8.toList.map UInt8.toNat).length + 3) / 4 * 4 := by
      simp [List.length_append, List.length_replicate]
      omega
    rw [hlen]
    exact Nat.mul_mod_left _ 4

/-- Witness for C9 at the identifier `"x"`. -/
theorem c9_buffer_layout_witness :
    ("x" ≠ "") ∧
    ∃ l, createBufferFromString (.str "x") = .ok l ∧
      l.take 4 = [0, 0, 0, 0] ∧
      (l.drop 4).take ("x".toUTF8.toList.map UInt8.toNat).length =
        "x".toUTF8.toList.map UInt8.toNat ∧
      (∀ b ∈ l.drop (4 + ("x".toUTF8.toList.map UInt8.toNat).length), b = 0) ∧
      l.length % 4 = 0 ∧
      createBufferFromString (.str "") =
        .error ⟨"Invalid input: must be a non-empty string"⟩ ∧
      createBufferFromString .nonString =
        .error ⟨"Invalid input: must be a non-empty string"⟩ :=
  ⟨by decide, c9_buffer_layout "x" (by decide)⟩
